import Mathlib

/-!
Verification of the sview monitoring agent's core
(metrics parsing, ring history, alert cooldowns, snapshot storage).

The Rust sources are shallowly embedded: `f64` values are modelled by the
`F64` type (exact rationals plus NaN and the two infinities, covering the
operations the code performs on metric values), `u64`/`u32` quantities by
`Nat` with explicit saturation where Rust's `as` casts saturate, strings by
Lean `String`/`List Char`, and file-system state by explicit maps passed
through the functions.
-/

namespace Sview

/-- Model of Rust `f64` for the operations the program performs on parsed
metric values: NaN, the two infinities, and finite values taken as exact
rationals (rounding of decimal literals to binary doubles is idealized
away; none of the verified properties depend on it). -/
inductive F64 where
  | nan : F64
  | inf : Bool → F64
  | val : ℚ → F64
deriving DecidableEq, Repr

/-- `u64::MAX`. -/
def U64MAX : Nat := 18446744073709551615

/-- Rust `as u64` cast from `f64`: saturating, truncating toward zero,
NaN maps to 0. For a nonnegative rational, `q.num.toNat / q.den` is
exactly the truncation of `q`. -/
def F64.asU64 : F64 → Nat
  | .nan => 0
  | .inf true => 0
  | .inf false => U64MAX
  | .val q => if q < 0 then 0 else min (q.num.toNat / q.den) U64MAX

/-- Rust `value >= 0.0` (false for NaN). -/
def F64.ge0 : F64 → Bool
  | .nan => false
  | .inf b => !b
  | .val q => decide (0 ≤ q)

/-- Rust `f64::is_finite`. -/
def F64.isFinite : F64 → Bool
  | .val _ => true
  | _ => false

/-- Rust `value > 0.0` (false for NaN). -/
def F64.gt0 : F64 → Bool
  | .nan => false
  | .inf b => !b
  | .val q => decide (0 < q)

/-- Division of an `f64` by `10 ^ k` (used for the source's `/ 1_000_000.0`
ns-to-ms and `/ 1_000_000_000.0` ns-to-s conversions). The rational case
is built with `mkRat` so that it evaluates by kernel reduction;
`divPow10_val` below identifies it with ordinary division. -/
def F64.divPow10 (f : F64) (k : Nat) : F64 :=
  match f with
  | .nan => .nan
  | .inf b => .inf b
  | .val q => .val (mkRat q.num (q.den * 10 ^ k))

/-- Exact rational subtraction, written with `mkRat` for kernel
computability; `qSub_eq` (below, with the theorems) identifies it with
ordinary subtraction. -/
def qSub (p q : ℚ) : ℚ := mkRat (p.num * q.den - q.num * p.den) (p.den * q.den)

/-- Rust `f64` subtraction (for the history trend query). -/
def F64.sub : F64 → F64 → F64
  | .nan, _ => .nan
  | _, .nan => .nan
  | .inf a, .inf b => if a = b then .nan else .inf a
  | .inf a, .val _ => .inf a
  | .val _, .inf b => .inf (!b)
  | .val p, .val q => .val (qSub p q)

/-! ### Character-list string primitives used by the parser -/

/-- Rust `str::trim` (whitespace model restricted to ASCII whitespace,
which covers every input the program receives). -/
def trimChars (cs : List Char) : List Char :=
  ((cs.dropWhile Char.isWhitespace).reverse.dropWhile Char.isWhitespace).reverse

/-- Digit run to a natural number (base 10). -/
def digitsToNat (cs : List Char) : Nat :=
  cs.foldl (fun a c => a * 10 + (c.toNat - 48)) 0

/-- Index of the first character satisfying `p`, or `none`
(model of Rust `str::find`; for the prefix-slicing uses in this program a
character index is interchangeable with Rust's byte index because the
index is only ever used to cut the string at that character). -/
def firstIdxP (p : Char → Bool) : List Char → Option Nat
  | [] => none
  | a :: r => if p a then some 0 else (firstIdxP p r).map (· + 1)

/-- The part of `cs` after the last space, or `none` when there is no
space: Rust `line.rsplit_once(' ')?.1`. -/
def afterLastSpace (cs : List Char) : Option (List Char) :=
  match firstIdxP (· = ' ') cs.reverse with
  | none => none
  | some i => some ((cs.reverse.take i).reverse)

/-- Parse the numeric part of Rust's `f64` grammar
(`Digit+ | Digit+ '.' Digit* | Digit* '.' Digit+`, optional exponent),
returning the exact rational value. -/
def parseF64Number (cs : List Char) : Option ℚ :=
  let d1 := cs.takeWhile Char.isDigit
  let rest1 := cs.drop d1.length
  let (d2, rest2) :=
    match rest1 with
    | '.' :: r => (r.takeWhile Char.isDigit, r.drop (r.takeWhile Char.isDigit).length)
    | _ => ([], rest1)
  if d1.length + d2.length = 0 then none
  else
    let mant : ℚ := mkRat (digitsToNat (d1 ++ d2)) (10 ^ d2.length)
    match rest2 with
    | [] => some mant
    | e :: r =>
      if e = 'e' ∨ e = 'E' then
        let (eneg, r2) :=
          match r with
          | '+' :: r2 => (false, r2)
          | '-' :: r2 => (true, r2)
          | _ => (false, r)
        let ed := r2.takeWhile Char.isDigit
        if ed.length = 0 ∨ (r2.drop ed.length).length ≠ 0 then none
        else if eneg then some (mkRat mant.num (mant.den * 10 ^ digitsToNat ed))
        else some (mkRat (mant.num * 10 ^ digitsToNat ed) mant.den)
      else none

/-- Rust `str::parse::<f64>()`: optional sign, then `inf`, `infinity` or
`nan` (any case) or a decimal number. Values are exact rationals
(overflow to infinity on astronomically large literals is idealized
away; no input of interest reaches it). -/
def parseF64 (cs : List Char) : Option F64 :=
  let (neg, body) :=
    match cs with
    | '+' :: r => (false, r)
    | '-' :: r => (true, r)
    | _ => (false, cs)
  let low := body.map Char.toLower
  if low = "inf".data ∨ low = "infinity".data then some (.inf neg)
  else if low = "nan".data then some .nan
  else
    match parseF64Number body with
    | none => none
    | some q => some (.val (if neg then -q else q))

/-- Embedding of `parse_metric_line` (src/metrics.rs): trim the line, cut
the name at the position `line.find('{').or_else(|| line.find(' '))`,
take the token after the last space, and keep the line exactly when that
token parses as an `f64`. -/
def parse_metric_line (line : String) : Option (String × F64) :=
  let cs := trimChars line.data
  match (firstIdxP (· = '\x7b') cs).orElse (fun _ => firstIdxP (· = ' ') cs) with
  | none => none
  | some nameEnd =>
    let name := String.mk (cs.take nameEnd)
    match afterLastSpace cs with
    | none => none
    | some tok =>
      match parseF64 tok with
      | none => none
      | some v => some (name, v)

/-! ### The parsed metrics record (src/metrics.rs `NodeMetrics`) -/

/-- `P2PStats`. -/
structure P2PStats where
  enabled : Option Bool := none
  cold_peers : Option Nat := none
  warm_peers : Option Nat := none
  hot_peers : Option Nat := none
deriving DecidableEq, Repr

/-- `NodeType` (Rust `Default` is `CardanoNode`). -/
inductive NodeType where
  | cardanoNode
  | dingo
  | amaru
  | unknown
deriving DecidableEq, Repr

/-- `NodeMetrics`: one optional typed field per recognized metric plus the
raw name-to-value map (modelled as an association list with the
`HashMap::insert` overwrite semantics). -/
structure NodeMetrics where
  node_type : NodeType := .cardanoNode
  node_version : Option String := none
  block_height : Option Nat := none
  slot_num : Option Nat := none
  epoch : Option Nat := none
  slot_in_epoch : Option Nat := none
  density : Option F64 := none
  tx_processed : Option Nat := none
  mempool_txs : Option Nat := none
  mempool_bytes : Option Nat := none
  peers_connected : Option Nat := none
  memory_used : Option Nat := none
  memory_heap : Option Nat := none
  gc_minor : Option Nat := none
  gc_major : Option Nat := none
  forks : Option Nat := none
  block_delay_s : Option F64 := none
  blocks_served : Option Nat := none
  blocks_late : Option Nat := none
  block_delay_cdf_1s : Option F64 := none
  block_delay_cdf_3s : Option F64 := none
  block_delay_cdf_5s : Option F64 := none
  cpu_ms : Option Nat := none
  uptime_seconds : Option F64 := none
  sync_progress : Option F64 := none
  connected : Bool := false
  raw : List (String × F64) := []
  kes_period : Option Nat := none
  kes_remaining : Option Nat := none
  kes_periods_per_cert : Option Nat := none
  forging_enabled : Option Bool := none
  is_leader : Option Bool := none
  blocks_adopted : Option Nat := none
  blocks_didnt_adopt : Option Nat := none
  about_to_lead : Option Nat := none
  missed_slots : Option Nat := none
  op_cert_counter_disk : Option Nat := none
  op_cert_counter_chain : Option Nat := none
  op_cert_start_kes_period : Option Nat := none
  p2p : P2PStats := {}
  node_start_time : Option Nat := none
  incoming_connections : Option Nat := none
  outgoing_connections : Option Nat := none
  full_duplex_connections : Option Nat := none
  unidirectional_connections : Option Nat := none
deriving DecidableEq, Repr

/-- `HashMap::insert`: overwrite the existing key or append. -/
def rawInsert (m : List (String × F64)) (k : String) (v : F64) :
    List (String × F64) :=
  if m.any (fun p => p.1 = k) then
    m.map (fun p => if p.1 = k then (k, v) else p)
  else m ++ [(k, v)]

/-- The `match name.as_str()` body of `parse_prometheus_metrics`: maps one
recognized metric name to its typed field, in the source's arm order. -/
def applyMetric (m : NodeMetrics) (name : String) (v : F64) : NodeMetrics :=
  if name = "cardano_node_metrics_blockNum_int" then
    { m with block_height := some v.asU64 }
  else if name = "cardano_node_metrics_slotNum_int" then
    { m with slot_num := some v.asU64 }
  else if name = "cardano_node_metrics_epoch_int" then
    { m with epoch := some v.asU64 }
  else if name = "cardano_node_metrics_slotInEpoch_int" then
    { m with slot_in_epoch := some v.asU64 }
  else if name = "cardano_node_metrics_density_real" then
    { m with density := some v }
  else if name = "cardano_node_metrics_txsProcessedNum_int"
      ∨ name = "cardano_node_metrics_txsProcessedNum_counter"
      ∨ name = "cardano_node_metrics_txsProcessedNum" then
    { m with tx_processed := some v.asU64 }
  else if name = "cardano_node_metrics_forks_int"
      ∨ name = "cardano_node_metrics_forks_counter"
      ∨ name = "cardano_node_metrics_forks" then
    { m with forks := some v.asU64 }
  else if name = "cardano_node_metrics_slotsMissedNum_int"
      ∨ name = "cardano_node_metrics_slotsMissed_int" then
    { m with missed_slots := some v.asU64 }
  else if name = "cardano_node_metrics_connectedPeers_int" then
    { m with peers_connected := some v.asU64 }
  else if name = "cardano_node_metrics_RTS_gcLiveBytes_int" then
    { m with memory_used := some v.asU64 }
  else if name = "cardano_node_metrics_RTS_gcHeapBytes_int" then
    { m with memory_heap := some v.asU64 }
  else if name = "cardano_node_metrics_Mem_resident_int" then
    if m.memory_used = none then { m with memory_used := some v.asU64 } else m
  else if name = "cardano_node_metrics_RTS_gcMinorNum_int" then
    { m with gc_minor := some v.asU64 }
  else if name = "cardano_node_metrics_RTS_gcMajorNum_int" then
    { m with gc_major := some v.asU64 }
  else if name = "rts_gc_cpu_ms" then
    { m with cpu_ms := some v.asU64 }
  else if name = "cardano_node_metrics_RTS_cpuNs_int"
      ∨ name = "cardano_node_metrics_RTS_cpu_ns"
      ∨ name = "cardano_node_metrics_RTS_cpuNs" then
    { m with cpu_ms := some (v.divPow10 6).asU64 }
  else if name = "cardano_node_metrics_txsInMempool_int" then
    { m with mempool_txs := some v.asU64 }
  else if name = "cardano_node_metrics_mempoolBytes_int" then
    { m with mempool_bytes := some v.asU64 }
  else if name = "cardano_node_metrics_blockfetchclient_blockdelay"
      ∨ name = "cardano_node_metrics_blockfetchclient_blockdelay_s"
      ∨ name = "cardano_node_metrics_blockfetchclient_blockdelay_real" then
    { m with block_delay_s := some v }
  else if name = "cardano_node_metrics_served_block_count_int"
      ∨ name = "cardano_node_metrics_served_block_count_counter"
      ∨ name = "cardano_node_metrics_served_block_counter"
      ∨ name = "cardano_node_metrics_served_block_count" then
    { m with blocks_served := some v.asU64 }
  else if name = "cardano_node_metrics_blockfetchclient_lateblocks"
      ∨ name = "cardano_node_metrics_blockfetchclient_lateblocks_int"
      ∨ name = "cardano_node_metrics_blockfetchclient_lateblocks_counter" then
    { m with blocks_late := some v.asU64 }
  else if name = "cardano_node_metrics_blockfetchclient_blockdelay_cdfOne"
      ∨ name = "cardano_node_metrics_blockfetchclient_blockdelay_cdfOne_real" then
    { m with block_delay_cdf_1s := some v }
  else if name = "cardano_node_metrics_blockfetchclient_blockdelay_cdfThree"
      ∨ name = "cardano_node_metrics_blockfetchclient_blockdelay_cdfThree_real" then
    { m with block_delay_cdf_3s := some v }
  else if name = "cardano_node_metrics_blockfetchclient_blockdelay_cdfFive"
      ∨ name = "cardano_node_metrics_blockfetchclient_blockdelay_cdfFive_real" then
    { m with block_delay_cdf_5s := some v }
  else if name = "cardano_node_metrics_nodeStartTime_int"
      ∨ name = "cardano_node_metrics_node_start_time_int" then
    { m with node_start_time := some v.asU64 }
  else if name = "cardano_node_metrics_upTime_ns"
      ∨ name = "cardano_node_metrics_Stat_startTime" then
    { m with uptime_seconds := some (v.divPow10 9) }
  else if name = "cardano_node_metrics_connectionManager_incomingConns" then
    { m with incoming_connections := some v.asU64 }
  else if name = "cardano_node_metrics_connectionManager_outgoingConns" then
    { m with outgoing_connections := some v.asU64 }
  else if name = "cardano_node_metrics_connectionManager_duplexConns" then
    { m with full_duplex_connections := some v.asU64 }
  else if name = "cardano_node_metrics_connectionManager_unidirectionalConns" then
    { m with unidirectional_connections := some v.asU64 }
  else if name = "cardano_node_metrics_connectionManager_fullDuplexConns" then
    if m.full_duplex_connections = none then
      { m with full_duplex_connections := some v.asU64 }
    else m
  else if name = "cardano_node_metrics_p2p_enabled_int" then
    { m with p2p := { m.p2p with enabled := some v.gt0 } }
  else if name = "cardano_node_metrics_p2p_coldPeersCount_int" then
    { m with p2p := { m.p2p with cold_peers := some v.asU64 } }
  else if name = "cardano_node_metrics_p2p_warmPeersCount_int" then
    { m with p2p := { m.p2p with warm_peers := some v.asU64 } }
  else if name = "cardano_node_metrics_p2p_hotPeersCount_int" then
    { m with p2p := { m.p2p with hot_peers := some v.asU64 } }
  else if name = "cardano_node_metrics_peerSelection_cold"
      ∨ name = "cardano_node_metrics_peerSelection_Cold_int" then
    { m with p2p := { m.p2p with cold_peers := some v.asU64 } }
  else if name = "cardano_node_metrics_peerSelection_warm"
      ∨ name = "cardano_node_metrics_peerSelection_Warm_int" then
    { m with p2p := { m.p2p with warm_peers := some v.asU64 } }
  else if name = "cardano_node_metrics_peerSelection_hot"
      ∨ name = "cardano_node_metrics_peerSelection_Hot_int" then
    { m with p2p := { m.p2p with hot_peers := some v.asU64 } }
  else if name = "cardano_node_metrics_currentKESPeriod_int" then
    if v.ge0 && v.isFinite then { m with kes_period := some v.asU64 } else m
  else if name = "cardano_node_metrics_remainingKESPeriods_int" then
    if v.ge0 && v.isFinite then { m with kes_remaining := some v.asU64 } else m
  else if name = "cardano_node_metrics_operationalCertificateExpiryKESPeriod_int" then
    if v.ge0 && v.isFinite then { m with kes_periods_per_cert := some v.asU64 }
    else m
  else if name = "cardano_node_metrics_forging_enabled_int" then
    { m with forging_enabled := some v.gt0 }
  else if name = "cardano_node_metrics_Forge_node_is_leader_int" then
    { m with is_leader := some v.gt0 }
  else if name = "cardano_node_metrics_Forge_adopted_int"
      ∨ name = "cardano_node_metrics_blocksForged_int" then
    { m with blocks_adopted := some v.asU64 }
  else if name = "cardano_node_metrics_Forge_didnt_adopt_int" then
    { m with blocks_didnt_adopt := some v.asU64 }
  else if name = "cardano_node_metrics_Forge_forge_about_to_lead_int" then
    { m with about_to_lead := some v.asU64 }
  else if name = "cardano_node_metrics_nodeIsLeader_int" then
    if m.is_leader = none then { m with is_leader := some v.gt0 } else m
  else if name = "cardano_node_metrics_operationalCertificateStartKESPeriod_int" then
    { m with op_cert_start_kes_period := some v.asU64 }
  else if name = "cardano_node_metrics_opCertCounterOnDisk_int" then
    { m with op_cert_counter_disk := some v.asU64 }
  else if name = "cardano_node_metrics_opCertCounterOnChain_int" then
    { m with op_cert_counter_chain := some v.asU64 }
  else m

/-- One line of the `for line in text.lines()` loop: skip comment/blank
lines, otherwise parse the line, record it in the raw map and run the
typed-field match. -/
def processLine (m : NodeMetrics) (line : String) : NodeMetrics :=
  if line.data.head? = some '#' ∨ trimChars line.data = [] then m
  else
    match parse_metric_line line with
    | none => m
    | some (name, v) => applyMetric { m with raw := rawInsert m.raw name v } name v

/-- Split a character list at every newline (Rust `str::split('\n')`
semantics: the empty input gives one empty part). -/
def splitNl : List Char → List Char → List (List Char)
  | [], acc => [acc.reverse]
  | '\n' :: r, acc => acc.reverse :: splitNl r []
  | c :: r, acc => splitNl r (c :: acc)

/-- Rust `str::lines`: split on newline, with a final newline producing no
trailing empty line, and one trailing carriage return stripped per line. -/
def linesOf (s : String) : List String :=
  let parts := splitNl s.data []
  let parts := if parts.getLast? = some [] then parts.dropLast else parts
  parts.map (fun l => String.mk (if l.getLast? = some '\x0d' then l.dropLast else l))

/-- `detect_node_type`. -/
def detect_node_type (raw : List (String × F64)) : NodeType :=
  if raw.any (fun p => "dingo_".data.isPrefixOf p.1.data) then .dingo
  else if raw.any (fun p => "amaru_".data.isPrefixOf p.1.data) then .amaru
  else if raw.any (fun p => "cardano_node_".data.isPrefixOf p.1.data) then .cardanoNode
  else .unknown

/-- Rust `f64::clamp`. -/
def clampQ (x lo hi : ℚ) : ℚ := min (max x lo) hi

/-- Mainnet Byron genesis timestamp (hard-coded in the source). -/
def MAINNET_GENESIS : Nat := 1506203091
/-- Approximate slot at the Shelley transition (hard-coded). -/
def SHELLEY_TRANSITION_SLOT : Nat := 4492800
/-- Wall-clock time of the Shelley transition (hard-coded). -/
def SHELLEY_TRANSITION_TIME : Nat := 1596059091

/-- Embedding of `parse_prometheus_metrics` (src/metrics.rs). The wall
clock the Rust code reads internally is passed in as `now` (0 models a
clock-read failure, matching the source's fallback). -/
def parse_prometheus_metrics (text : String) (now : Nat) : NodeMetrics :=
  let m := (linesOf text).foldl processLine { connected := true }
  let m := { m with node_type := detect_node_type m.raw }
  let m :=
    match m.node_start_time with
    | some st => if st ≤ now then { m with uptime_seconds := some (.val (now - st : Nat)) } else m
    | none => m
  let m :=
    if m.peers_connected = none then
      let cold := m.p2p.cold_peers.getD 0
      let warm := m.p2p.warm_peers.getD 0
      let hot := m.p2p.hot_peers.getD 0
      if 0 < cold ∨ 0 < warm ∨ 0 < hot then
        { m with peers_connected := some (cold + warm + hot) }
      else m
    else m
  match m.slot_num with
  | some slot =>
    if 0 < now then
      let expected :=
        if SHELLEY_TRANSITION_TIME < now then
          SHELLEY_TRANSITION_SLOT + (now - SHELLEY_TRANSITION_TIME)
        else (now - MAINNET_GENESIS) / 20
      if 0 < expected then
        let sync : F64 := .val (clampQ (mkRat (slot * 100) expected) 0 100)
        { m with sync_progress := some sync }
      else m
    else m
  | none => m

/-! ### Ring history (src/history.rs) -/

/-- `MetricHistory`: a capacity-bounded FIFO of samples. The `VecDeque` is
modelled as a list with the front (oldest) element first. -/
structure MetricHistory where
  capacity : Nat
  values : List F64
deriving DecidableEq, Repr

namespace MetricHistory

/-- `MetricHistory::new`. -/
def new (capacity : Nat) : MetricHistory := ⟨capacity, []⟩

/-- `MetricHistory::push`: pop the front when `len >= capacity`, then push
at the back (`VecDeque::pop_front` on an empty deque is a no-op, as is
`List.tail` on `[]`). -/
def push (h : MetricHistory) (v : F64) : MetricHistory :=
  let vs := if h.capacity ≤ h.values.length then h.values.tail else h.values
  { h with values := vs ++ [v] }

/-- `MetricHistory::len`. -/
def len (h : MetricHistory) : Nat := h.values.length

/-- `MetricHistory::trend`: newest minus oldest, `None` when fewer than two
samples are stored. -/
def trend (h : MetricHistory) : Option F64 :=
  if h.values.length < 2 then none
  else
    match h.values.head?, h.values.getLast? with
    | some oldest, some newest => some (F64.sub newest oldest)
    | _, _ => none

/-- A sequence of pushes (helper for stating buffer-evolution claims). -/
def pushMany (h : MetricHistory) (xs : List F64) : MetricHistory :=
  xs.foldl push h

end MetricHistory

/-! ### Alert engine (src/alerts.rs) -/

/-- `AlertSeverity` (ordered Info < Warning < Critical). -/
inductive AlertSeverity where
  | info
  | warning
  | critical
deriving DecidableEq, Repr

/-- `Alert`. -/
structure Alert where
  timestamp : Nat
  node_name : String
  severity : AlertSeverity
  title : String
  message : String
deriving DecidableEq, Repr

/-- Rust `progress < c` on an `f64` (false for NaN). -/
def F64.ltQ : F64 → ℚ → Bool
  | .nan, _ => false
  | .inf b, _ => b
  | .val q, c => decide (q < c)

/-- Rust `format!` of an `f64` with `{:.2}` precision: two decimals.
Rounding at the hundredths digit is idealized as round-half-up on the
absolute value; no verified property depends on the digits produced, only
on presence versus absence of the field. -/
def F64.fmtTwoDec : F64 → String
  | .nan => "NaN"
  | .inf true => "-inf"
  | .inf false => "inf"
  | .val q =>
    let num100 := q.num.natAbs * 100
    let rounded := num100 / q.den + (if q.den ≤ 2 * (num100 % q.den) then 1 else 0)
    let sign := if q.num < 0 then "-" else ""
    let frac := rounded % 100
    sign ++ Nat.repr (rounded / 100) ++ "."
      ++ (if frac < 10 then "0" else "") ++ Nat.repr frac

/-- `AlertManager` state: the deduplication timestamps and the bounded
in-memory alert ring. -/
structure AlertManager where
  node_name : String
  recent_alerts : List Alert := []
  max_recent : Nat := 50
  last_kes_warning : Option Nat := none
  last_peer_warning : Option Nat := none
  last_sync_warning : Option Nat := none
  last_height_stall_warning : Option Nat := none
deriving DecidableEq, Repr

namespace AlertManager

/-- `AlertManager::new`. -/
def new (node_name : String) : AlertManager := { node_name }

/-- `add_alert`: push onto the in-memory ring, evicting the front when the
ring exceeds `max_recent` (the file-log write is modelled as the emitted
alert returned by the check functions). -/
def addAlert (st : AlertManager) (a : Alert) : AlertManager :=
  let r := st.recent_alerts ++ [a]
  { st with recent_alerts := if st.max_recent < r.length then r.tail else r }

/-- `check_kes_expiry`: fires (Critical) when fewer than 5 KES periods
remain and the 3600 s cooldown has expired. The wall clock the Rust code
reads is passed in as `now`; the emitted alert (the source's file-log
write) is returned alongside the new state. -/
def check_kes_expiry (st : AlertManager) (now : Nat) (kes_remaining : Option Nat) :
    AlertManager × Option Alert :=
  match kes_remaining with
  | none => (st, none)
  | some remaining =>
    if remaining < 5 then
      if (match st.last_kes_warning with
          | some last_warn => decide (now - last_warn < 3600)
          | none => false) then (st, none)
      else
        let alert : Alert :=
          { timestamp := now, node_name := st.node_name,
            severity := .critical, title := "KES Expiry Critical",
            message := "KES periods remaining: " ++ Nat.repr remaining
              ++ " (renew certificate immediately)" }
        ({ addAlert st alert with last_kes_warning := some now }, some alert)
    else (st, none)

/-- `check_peer_count`: fires when fewer than 2 peers are connected, with a
300 s cooldown; severity Critical at exactly zero peers, Warning
otherwise. -/
def check_peer_count (st : AlertManager) (now : Nat) (peers : Option Nat) :
    AlertManager × Option Alert :=
  match peers with
  | none => (st, none)
  | some count =>
    if count < 2 then
      if (match st.last_peer_warning with
          | some last_warn => decide (now - last_warn < 300)
          | none => false) then (st, none)
      else
        let alert : Alert :=
          { timestamp := now, node_name := st.node_name,
            severity := if count = 0 then .critical else .warning,
            title := "Low Peer Count",
            message := "Only " ++ Nat.repr count ++ " peer(s) connected" }
        ({ addAlert st alert with last_peer_warning := some now }, some alert)
    else (st, none)

/-- `check_sync_progress`: fires when progress is below 95 %, with a 600 s
cooldown; severity Critical below 90 %, Warning otherwise. -/
def check_sync_progress (st : AlertManager) (now : Nat) (sync : Option F64) :
    AlertManager × Option Alert :=
  match sync with
  | none => (st, none)
  | some progress =>
    if progress.ltQ 95 then
      if (match st.last_sync_warning with
          | some last_warn => decide (now - last_warn < 600)
          | none => false) then (st, none)
      else
        let alert : Alert :=
          { timestamp := now, node_name := st.node_name,
            severity := if progress.ltQ 90 then .critical else .warning,
            title := "Sync Progress Degraded",
            message := "Node is " ++ progress.fmtTwoDec ++ "% synced" }
        ({ addAlert st alert with last_sync_warning := some now }, some alert)
    else (st, none)

/-- `check_block_stall`: fires (Warning) when no block has arrived for
more than 300 s, with a 600 s cooldown. -/
def check_block_stall (st : AlertManager) (now : Nat)
    (current_height : Option Nat) (time_since_last_block : Option Nat) :
    AlertManager × Option Alert :=
  match time_since_last_block with
  | none => (st, none)
  | some age =>
    if 300 < age then
      if (match st.last_height_stall_warning with
          | some last_warn => decide (now - last_warn < 600)
          | none => false) then (st, none)
      else
        let alert : Alert :=
          { timestamp := now, node_name := st.node_name,
            severity := .warning, title := "Block Height Stalled",
            message := "No new blocks for " ++ Nat.repr age
              ++ " seconds (height: " ++ Nat.repr (current_height.getD 0) ++ ")" }
        ({ addAlert st alert with last_height_stall_warning := some now }, some alert)
    else (st, none)

end AlertManager

/-! ### Snapshot storage (src/storage.rs) -/

/-- `DEFAULT_RETENTION_DAYS`. -/
def DEFAULT_RETENTION_DAYS : Nat := 30

/-- `MIN_SAMPLE_INTERVAL_SECS`. -/
def MIN_SAMPLE_INTERVAL_SECS : Nat := 3600

/-- `is_leap_year`. -/
def is_leap_year (year : Nat) : Bool :=
  (year % 4 == 0 && year % 100 != 0) || (year % 400 == 0)

/-- Length of a year under `is_leap_year`. -/
def daysInYear (year : Nat) : Nat := if is_leap_year year then 366 else 365

/-- The `days_in_months` table of `timestamp_to_date`/`date_to_timestamp`. -/
def days_in_months (year : Nat) : List Nat :=
  if is_leap_year year then [31, 29, 31, 30, 31, 30, 31, 31, 30, 31, 30, 31]
  else [31, 28, 31, 30, 31, 30, 31, 31, 30, 31, 30, 31]

/-- The year loop of `timestamp_to_date`, with explicit fuel so that it is
structurally recursive and kernel-computable. Each iteration consumes at
least 365 days, so any `fuel > d` is enough; `timestamp_to_date` calls it
with `d + 1`, and `yearLoopGo_spec` (below) characterizes the result
independently of the fuel. The loop's `year` variable is a `u32` in the
source: the `year += 1` increment wraps modulo `2^32` (the release-build
semantics; a debug build panics at the same boundary, so the functions
diverge from the unbounded calendar either way once the year counter
leaves `u32`). -/
def yearLoopGo : Nat → Nat → Nat → Nat × Nat
  | 0, year, d => (year, d)
  | fuel + 1, year, d =>
    if d < daysInYear year then (year, d)
    else yearLoopGo fuel ((year + 1) % 4294967296) (d - daysInYear year)

/-- The month loop of `timestamp_to_date`: walk the month table, breaking
at the first month the remaining day count falls inside (the `u32` month
counter stays below 14, far from wrapping). -/
def monthLoop : Nat → List Nat → Nat → Nat × Nat
  | month, [], d => (month, d)
  | month, len :: rest, d =>
    if d < len then (month, d) else monthLoop (month + 1) rest (d - len)

/-- `timestamp_to_date`: Unix timestamp to (year, month, day), with the
source's `u32` year-counter wrap modelled in `yearLoopGo`. -/
def timestamp_to_date (ts : Nat) : Nat × Nat × Nat :=
  let days_since_epoch := ts / 86400
  let (year, rem) := yearLoopGo (days_since_epoch + 1) 1970 days_since_epoch
  let (month, rem2) := monthLoop 1 (days_in_months year) rem
  (year, month, rem2 + 1)

/-- The `for y in 1970..year` accumulation of `date_to_timestamp`,
recursing on the number of years summed. -/
def sumYears : Nat → Nat → Nat
  | _, 0 => 0
  | a, n + 1 => daysInYear a + sumYears (a + 1) n

/-- `date_to_timestamp`: (year, month, day) to the Unix timestamp of that
day's midnight. -/
def date_to_timestamp (year month day : Nat) : Nat :=
  (sumYears 1970 (year - 1970)
    + ((days_in_months year).take (month - 1)).sum
    + (day - 1)) * 86400

/-- Number of leap years in `[0, x)` under the standard rule: multiples
of 4, minus multiples of 100, plus multiples of 400 (each rounded-up
division counts the multiples below `x`). Analysis helper for the closed
form of `sumYears`. -/
def leapCount (x : Nat) : Nat :=
  (x + 3) / 4 - (x + 99) / 100 + (x + 399) / 400

/-- Left-pad a numeral with zeros (the `{:02}`/`{:04}` format specifiers). -/
def padNum (width n : Nat) : String :=
  let s := Nat.repr n
  String.mk (List.replicate (width - s.length) '0') ++ s

/-- `timestamp_to_iso8601`. -/
def timestamp_to_iso8601 (ts : Nat) : String :=
  let (year, month, day) := timestamp_to_date ts
  let seconds_in_day := ts % 86400
  let hour := seconds_in_day / 3600
  let minute := seconds_in_day % 3600 / 60
  let second := seconds_in_day % 60
  padNum 4 year ++ "-" ++ padNum 2 month ++ "-" ++ padNum 2 day ++ "T"
    ++ padNum 2 hour ++ ":" ++ padNum 2 minute ++ ":" ++ padNum 2 second ++ "Z"

/-- `MetricSnapshot`: the reduced persisted schema. -/
structure MetricSnapshot where
  timestamp : Nat
  block_height : Option Nat := none
  slot_num : Option Nat := none
  epoch : Option Nat := none
  slot_in_epoch : Option Nat := none
  peers_connected : Option Nat := none
  memory_used : Option Nat := none
  mempool_txs : Option Nat := none
  mempool_bytes : Option Nat := none
  sync_progress : Option F64 := none
  kes_period : Option Nat := none
  kes_remaining : Option Nat := none
deriving DecidableEq, Repr

/-- `MetricSnapshot::from_metrics` (the internal clock read is the `now`
argument, 0 on clock failure as in the source). -/
def MetricSnapshot.from_metrics (m : NodeMetrics) (now : Nat) : MetricSnapshot :=
  { timestamp := now
    block_height := m.block_height
    slot_num := m.slot_num
    epoch := m.epoch
    slot_in_epoch := m.slot_in_epoch
    peers_connected := m.peers_connected
    memory_used := m.memory_used
    mempool_txs := m.mempool_txs
    mempool_bytes := m.mempool_bytes
    sync_progress := m.sync_progress
    kes_period := m.kes_period
    kes_remaining := m.kes_remaining }

/-- `DailySnapshots`. -/
structure DailySnapshots where
  node_name : String
  snapshots : List MetricSnapshot
deriving DecidableEq, Repr

/-- State of one daily file on disk: missing, unreadable/corrupt (load
fails), or loadable content. -/
inductive DayFile where
  | absent
  | corrupt
  | good : DailySnapshots → DayFile

/-- `StorageManager` together with the node's partition subtree: `fs` maps
a (year, month, day) date to that daily file's state. -/
structure StorageManager where
  node_name : String
  retention_days : Nat := DEFAULT_RETENTION_DAYS
  last_save_timestamp : Option Nat := none
  fs : Nat × Nat × Nat → DayFile

/-- The `if let Some(last) = self.last_save_timestamp` interval gate of
`save_snapshot`: true exactly when a previous save exists and less than
the minimum sampling interval has elapsed since it. -/
def intervalGate (lastSave : Option Nat) (now : Nat) : Bool :=
  match lastSave with
  | some last => decide (now - last < MIN_SAMPLE_INTERVAL_SECS)
  | none => false

/-- `save_snapshot`. The internal clock reads are the `now` argument; the
two fallible filesystem operations (`create_dir_all`, `write_daily_file`)
are driven by the `dirOk`/`writeOk` outcomes. A failed write leaves the
target file truncated (modelled `corrupt`) and, like every failure path,
leaves `last_save_timestamp` unchanged. -/
def save_snapshot (sm : StorageManager) (now : Nat) (metrics : NodeMetrics)
    (dirOk writeOk : Bool) : Except Unit Bool × StorageManager :=
  if intervalGate sm.last_save_timestamp now then (.ok false, sm)
  else if metrics.connected = false then (.ok false, sm)
  else
    let snapshot := MetricSnapshot.from_metrics metrics now
    let date := timestamp_to_date now
    if dirOk = false then (.error (), sm)
    else
      let daily :=
        match sm.fs date with
        | .good d => d
        | _ => { node_name := sm.node_name, snapshots := [] }
      let daily := { daily with snapshots := daily.snapshots ++ [snapshot] }
      if writeOk then
        (.ok true,
          { sm with last_save_timestamp := some now,
                    fs := fun k => if k = date then .good daily else sm.fs k })
      else
        (.error (),
          { sm with fs := fun k => if k = date then .corrupt else sm.fs k })

/-- The day-walking accumulation of `load_history`: for each of the last
`retention_days` dates (walking the retention window), append the
snapshots of the day's file when it exists and loads; missing and corrupt
files contribute nothing. -/
def gatherWindow (sm : StorageManager) (now : Nat) : List MetricSnapshot :=
  (List.range sm.retention_days).foldl
    (fun acc days_ago =>
      let target_ts := now - days_ago * 86400
      match sm.fs (timestamp_to_date target_ts) with
      | .good daily => acc ++ daily.snapshots
      | _ => acc)
    []

/-- `load_history(max_samples)`: gather the window, sort ascending by
timestamp (`sort_by_key`, a stable sort, modelled by `mergeSort`), and
keep only the most recent `max_samples` by dropping from the front. -/
def load_history (sm : StorageManager) (now : Nat) (max_samples : Nat) :
    List MetricSnapshot :=
  let all := gatherWindow sm now
  let sorted := all.mergeSort (fun a b => a.timestamp ≤ b.timestamp)
  if max_samples < sorted.length then sorted.drop (sorted.length - max_samples)
  else sorted

/-- `opt_to_csv`. -/
def opt_to_csv (o : Option Nat) : String :=
  match o with
  | some v => Nat.repr v
  | none => ""

/-- `opt_f64_to_csv`. -/
def opt_f64_to_csv (o : Option F64) : String :=
  match o with
  | some v => v.fmtTwoDec
  | none => ""

/-- The CSV header row of `export_to_csv`. -/
def csvHeader : String :=
  "timestamp,datetime,block_height,slot_num,epoch,slot_in_epoch,peers_connected,memory_used_bytes,mempool_txs,mempool_bytes,sync_progress,kes_period,kes_remaining"

/-- The 13 cells of one CSV data row. -/
def csvCells (s : MetricSnapshot) : List String :=
  [Nat.repr s.timestamp,
   timestamp_to_iso8601 s.timestamp,
   opt_to_csv s.block_height,
   opt_to_csv s.slot_num,
   opt_to_csv s.epoch,
   opt_to_csv s.slot_in_epoch,
   opt_to_csv s.peers_connected,
   opt_to_csv s.memory_used,
   opt_to_csv s.mempool_txs,
   opt_to_csv s.mempool_bytes,
   opt_f64_to_csv s.sync_progress,
   opt_to_csv s.kes_period,
   opt_to_csv s.kes_remaining]

/-- One CSV data row (the `writeln!` comma-joined format string). -/
def csvRow (s : MetricSnapshot) : String := String.intercalate "," (csvCells s)

/-- `usize::MAX` on the 64-bit targets the program is built for. -/
def USIZE_MAX : Nat := U64MAX

/-- `export_to_csv`: the written file as its list of lines, together with
the returned row count (`load_history(usize::MAX)` under the hood). -/
def export_to_csv (sm : StorageManager) (now : Nat) : List String × Nat :=
  let snapshots := load_history sm now USIZE_MAX
  (csvHeader :: snapshots.map csvRow, snapshots.length)

/-! #### cleanup_old_data and the partition tree -/

/-- One entry of a month directory (the program only ever creates plain
day files there). -/
structure MonthEntry where
  name : String
  isDir : Bool
  dayFiles : List String
deriving DecidableEq, Repr

/-- One entry of the node's history directory. -/
structure YearEntry where
  name : String
  isDir : Bool
  months : List MonthEntry
deriving DecidableEq, Repr

/-- Rust `Path::file_stem` on a file name: the whole name when it has no
dot or only a leading dot, otherwise the part before the last dot. -/
def fileStem (cs : List Char) : List Char :=
  match firstIdxP (· = '.') cs.reverse with
  | none => cs
  | some i =>
    let idx := cs.length - 1 - i
    if idx = 0 then cs else cs.take idx

/-- Rust `str::parse::<u32>()`: optional `+`, one or more ASCII digits,
value below `2^32`. -/
def rustParseU32 (cs : List Char) : Option Nat :=
  let body := match cs with | '+' :: r => r | _ => cs
  if body.isEmpty ∨ body.any (fun c => !c.isDigit) then none
  else
    let n := digitsToNat body
    if n < 4294967296 then some n else none

/-- `parse_date_from_path`, applied to the three path components the
source extracts (day-file name, month directory name, year directory
name). -/
def parse_date_from_path (yearName monthName fileName : String) : Option Nat :=
  match rustParseU32 (fileStem fileName.data) with
  | none => none
  | some day =>
    match rustParseU32 monthName.data with
    | none => none
    | some month =>
      match rustParseU32 yearName.data with
      | none => none
      | some year => some (date_to_timestamp year month day)

/-- Whether `cleanup_old_data` removes a given day file. -/
def dayFileRemoved (cutoff : Nat) (yearName monthName fileName : String) : Bool :=
  match parse_date_from_path yearName monthName fileName with
  | some file_date => decide (file_date < cutoff)
  | none => false

/-- `cleanup_old_data` on one month directory: delete the stale day
files, then the directory itself when it ends up empty. Returns the
remaining entry (if any) and the number of files removed. -/
def cleanupMonth (cutoff : Nat) (yearName : String) (me : MonthEntry) :
    Option MonthEntry × Nat :=
  if me.isDir = false then (some me, 0)
  else
    let keep := me.dayFiles.filter (fun f => !dayFileRemoved cutoff yearName me.name f)
    let removed := me.dayFiles.length - keep.length
    if keep.isEmpty then (none, removed)
    else (some { me with dayFiles := keep }, removed)

/-- `cleanup_old_data` on one year directory. -/
def cleanupYear (cutoff : Nat) (ye : YearEntry) : Option YearEntry × Nat :=
  if ye.isDir = false then (some ye, 0)
  else
    let results := ye.months.map (cleanupMonth cutoff ye.name)
    let months := results.filterMap Prod.fst
    let removed := (results.map Prod.snd).sum
    if months.isEmpty then (none, removed)
    else (some { ye with months := months }, removed)

/-- `cleanup_old_data`: every daily file whose path-reconstructed date is
older than `now - retention_days` (in seconds, saturating) is deleted;
month and year directories left empty are removed. Returns the surviving
tree and the removed-file count. -/
def cleanup_old_data (tree : List YearEntry) (now retention_days : Nat) :
    List YearEntry × Nat :=
  let cutoff := now - retention_days * 86400
  let results := tree.map (cleanupYear cutoff)
  (results.filterMap Prod.fst, (results.map Prod.snd).sum)

/-! ### Spec-side definitions (each written from the specification's words,
for comparison against the corresponding source embedding) -/

/-- The metric-name rule exactly as the specification words it: the
substring before the first `\x7b` or the first space, whichever occurs
first in the line. -/
def specNameWhicheverFirst (line : String) : Option String :=
  let cs := trimChars line.data
  match firstIdxP (fun c => c == '\x7b' || c == ' ') cs with
  | none => none
  | some i => some (String.mk (cs.take i))

/-- The amended metric-name rule: the part before the first `\x7b` when
the line contains one anywhere, otherwise the part before the first
space. -/
def specNameAmended (line : String) : Option String :=
  let cs := trimChars line.data
  if cs.any (· = '\x7b') then
    some (String.mk (cs.takeWhile (fun c => !decide (c = '\x7b'))))
  else if cs.any (· = ' ') then
    some (String.mk (cs.takeWhile (fun c => !decide (c = ' '))))
  else none

/-- The amended per-line parsing rule: the amended name rule, the token
after the last space as the value, and no result (the line is skipped)
when any piece is missing or the token does not parse as a float. -/
def specParseAmended (line : String) : Option (String × F64) :=
  match specNameAmended line with
  | none => none
  | some name =>
    match afterLastSpace (trimChars line.data) with
    | none => none
    | some tok =>
      match parseF64 tok with
      | none => none
      | some v => some (name, v)

/-- A calendar date the specification calls valid: year at least 1970,
month 1-12, day within the month's length under the leap-year rule. -/
def validDate (year month day : Nat) : Prop :=
  1970 ≤ year ∧ 1 ≤ month ∧ month ≤ 12 ∧ 1 ≤ day
    ∧ day ≤ (days_in_months year).getD (month - 1) 0

instance (y m d : Nat) : Decidable (validDate y m d) := by
  unfold validDate
  infer_instance

/-! ## Theorems -/

/-! ### Bridges between the `mkRat` forms and ordinary rational
arithmetic (fidelity of the computable embedding) -/

theorem divPow10_val (q : ℚ) (k : Nat) :
    F64.divPow10 (.val q) k = .val (q / 10 ^ k) := by
  have h : mkRat q.num (q.den * 10 ^ k) = q / 10 ^ k := by
    rw [Rat.mkRat_eq_div]
    push_cast
    rw [div_mul_eq_div_div, Rat.num_div_den]
  simp [F64.divPow10, h]

theorem qSub_eq (p q : ℚ) : qSub p q = p - q := by
  have h1 : ((p.den : ℚ)) ≠ 0 := Nat.cast_ne_zero.mpr p.den_nz
  have h2 : ((q.den : ℚ)) ≠ 0 := Nat.cast_ne_zero.mpr q.den_nz
  rw [qSub, Rat.mkRat_eq_div]
  push_cast
  conv_rhs => rw [← Rat.num_div_den p, ← Rat.num_div_den q]
  rw [div_sub_div _ _ h1 h2]
  congr 1
  ring

/-- The sync-progress fraction written with `mkRat` in
`parse_prometheus_metrics` is the source's `(slot / expected) * 100`. -/
theorem syncFraction_eq (slot expected : Nat) :
    (mkRat (slot * 100) expected : ℚ) = (slot : ℚ) / (expected : ℚ) * 100 := by
  rw [Rat.mkRat_eq_div]
  push_cast
  rw [div_mul_eq_mul_div]

/-! ### C1: alias priority -/

/-- C1, counterexample. The claim says that for two aliases of the same
semantic field in one payload the higher-priority alias wins regardless
of line order; but for the cold-peer count the two alias arms
(`p2p_coldPeersCount_int` and `peerSelection_Cold_int`) both assign
unconditionally, so swapping the two lines changes the resulting field:
whichever line comes last wins. -/
theorem claim_C1_counterexample :
    (parse_prometheus_metrics
      "cardano_node_metrics_p2p_coldPeersCount_int 5\ncardano_node_metrics_peerSelection_Cold_int 7"
      0).p2p.cold_peers = some 7
    ∧ (parse_prometheus_metrics
      "cardano_node_metrics_peerSelection_Cold_int 7\ncardano_node_metrics_p2p_coldPeersCount_int 5"
      0).p2p.cold_peers = some 5 := by
  constructor <;> decide

/-- C1 as amended: only the three explicitly written fallback arms
(resident memory for `memory_used`, the legacy `fullDuplexConns` name for
`full_duplex_connections`, and `nodeIsLeader_int` for `is_leader`) fill
their field only when it is still unset, so their primary alias wins
regardless of line order; every other alias of a shared field (e.g. the
two cold-peer-count aliases) assigns unconditionally, so the value of the
later line wins and line order decides the result. -/
theorem claim_C1_alias_resolution (m : NodeMetrics) (v : F64) :
    (applyMetric m "cardano_node_metrics_RTS_gcLiveBytes_int" v).memory_used
      = some v.asU64
    ∧ (applyMetric m "cardano_node_metrics_Mem_resident_int" v).memory_used
      = (if m.memory_used = none then some v.asU64 else m.memory_used)
    ∧ (applyMetric m "cardano_node_metrics_connectionManager_duplexConns" v).full_duplex_connections
      = some v.asU64
    ∧ (applyMetric m "cardano_node_metrics_connectionManager_fullDuplexConns" v).full_duplex_connections
      = (if m.full_duplex_connections = none then some v.asU64
         else m.full_duplex_connections)
    ∧ (applyMetric m "cardano_node_metrics_Forge_node_is_leader_int" v).is_leader
      = some v.gt0
    ∧ (applyMetric m "cardano_node_metrics_nodeIsLeader_int" v).is_leader
      = (if m.is_leader = none then some v.gt0 else m.is_leader)
    ∧ (applyMetric m "cardano_node_metrics_p2p_coldPeersCount_int" v).p2p.cold_peers
      = some v.asU64
    ∧ (applyMetric m "cardano_node_metrics_peerSelection_Cold_int" v).p2p.cold_peers
      = some v.asU64 := by
  refine ⟨rfl, ?_, rfl, ?_, rfl, ?_, rfl, rfl⟩
  · have h : applyMetric m "cardano_node_metrics_Mem_resident_int" v
        = if m.memory_used = none then { m with memory_used := some v.asU64 }
          else m := rfl
    rw [h]
    split <;> rfl
  · have h : applyMetric m "cardano_node_metrics_connectionManager_fullDuplexConns" v
        = if m.full_duplex_connections = none
          then { m with full_duplex_connections := some v.asU64 } else m := rfl
    rw [h]
    split <;> rfl
  · have h : applyMetric m "cardano_node_metrics_nodeIsLeader_int" v
        = if m.is_leader = none then { m with is_leader := some v.gt0 }
          else m := rfl
    rw [h]
    split <;> rfl

/-! ### C2: numeric validity -/

/-- C2, counterexample. The claim says every counter/gauge-derived typed
field rejects negative or non-finite values; but only the KES arms carry
that check: a negative block height and a NaN slot number are stored as
the saturating cast 0 instead of being left absent. -/
theorem claim_C2_counterexample :
    (parse_prometheus_metrics "cardano_node_metrics_blockNum_int -1" 0).block_height
      = some 0
    ∧ (parse_prometheus_metrics "cardano_node_metrics_slotNum_int NaN" 0).slot_num
      = some 0 := by
  constructor <;> decide

/-- C2 as amended: only the three KES fields (`kes_period`,
`kes_remaining`, `kes_periods_per_cert`) reject negative or non-finite
values (left unchanged / absent); every other typed numeric field stores
the saturating `as u64` cast of whatever value arrived (negative and NaN
become 0, +infinity becomes `u64::MAX`), exemplified by the block-height
and peer-count fields. -/
theorem claim_C2_validity_kes_only (m : NodeMetrics) (v : F64)
    (h : v.ge0 = false ∨ v.isFinite = false) :
    (applyMetric m "cardano_node_metrics_currentKESPeriod_int" v).kes_period
      = m.kes_period
    ∧ (applyMetric m "cardano_node_metrics_remainingKESPeriods_int" v).kes_remaining
      = m.kes_remaining
    ∧ (applyMetric m "cardano_node_metrics_operationalCertificateExpiryKESPeriod_int" v).kes_periods_per_cert
      = m.kes_periods_per_cert
    ∧ (applyMetric m "cardano_node_metrics_blockNum_int" v).block_height
      = some v.asU64
    ∧ (applyMetric m "cardano_node_metrics_connectedPeers_int" v).peers_connected
      = some v.asU64 := by
  have hc : (v.ge0 && v.isFinite) = false := by
    rcases h with h | h <;> simp [h]
  refine ⟨?_, ?_, ?_, rfl, rfl⟩
  · have e : applyMetric m "cardano_node_metrics_currentKESPeriod_int" v
        = if v.ge0 && v.isFinite then { m with kes_period := some v.asU64 }
          else m := rfl
    rw [e, hc]
    rfl
  · have e : applyMetric m "cardano_node_metrics_remainingKESPeriods_int" v
        = if v.ge0 && v.isFinite then { m with kes_remaining := some v.asU64 }
          else m := rfl
    rw [e, hc]
    rfl
  · have e : applyMetric m "cardano_node_metrics_operationalCertificateExpiryKESPeriod_int" v
        = if v.ge0 && v.isFinite
          then { m with kes_periods_per_cert := some v.asU64 } else m := rfl
    rw [e, hc]
    rfl

/-- Witness for C2: the theorem applied at the empty record and the
value -1. -/
theorem claim_C2_witness :
    ((F64.val (-1)).ge0 = false ∨ (F64.val (-1)).isFinite = false)
    ∧ ((applyMetric {} "cardano_node_metrics_currentKESPeriod_int" (F64.val (-1))).kes_period
        = ({} : NodeMetrics).kes_period
      ∧ (applyMetric {} "cardano_node_metrics_remainingKESPeriods_int" (F64.val (-1))).kes_remaining
        = ({} : NodeMetrics).kes_remaining
      ∧ (applyMetric {} "cardano_node_metrics_operationalCertificateExpiryKESPeriod_int" (F64.val (-1))).kes_periods_per_cert
        = ({} : NodeMetrics).kes_periods_per_cert
      ∧ (applyMetric {} "cardano_node_metrics_blockNum_int" (F64.val (-1))).block_height
        = some (F64.val (-1)).asU64
      ∧ (applyMetric {} "cardano_node_metrics_connectedPeers_int" (F64.val (-1))).peers_connected
        = some (F64.val (-1)).asU64) :=
  ⟨Or.inl (by decide), claim_C2_validity_kes_only {} (F64.val (-1)) (Or.inl (by decide))⟩

/-! ### C6: ring buffer -/

/-- Characterization of a push sequence into a buffer of capacity at least
1: the stored values are the last `capacity` of the accumulated stream,
oldest first. -/
theorem pushMany_eq (cap : Nat) (hcap : 1 ≤ cap) :
    ∀ (xs acc : List F64), acc.length ≤ cap →
      MetricHistory.pushMany ⟨cap, acc⟩ xs
        = ⟨cap, (acc ++ xs).drop (acc.length + xs.length - cap)⟩ := by
  intro xs
  induction xs with
  | nil =>
    intro acc hacc
    simp [MetricHistory.pushMany, Nat.sub_eq_zero_of_le hacc]
  | cons x rest ih =>
    intro acc hacc
    have step : MetricHistory.pushMany ⟨cap, acc⟩ (x :: rest)
        = MetricHistory.pushMany (MetricHistory.push ⟨cap, acc⟩ x) rest := rfl
    rcases Nat.lt_or_ge acc.length cap with hlt | hge
    · have e : MetricHistory.push ⟨cap, acc⟩ x = ⟨cap, acc ++ [x]⟩ := by
        simp [MetricHistory.push, Nat.not_le.mpr hlt]
      rw [step, e, ih (acc ++ [x]) (by simp; omega)]
      have h1 : (acc ++ [x]) ++ rest = acc ++ x :: rest := by simp
      have h2 : (acc ++ [x]).length + rest.length
          = acc.length + (x :: rest).length := by
        simp
        omega
      rw [h1, h2]
    · have heq : acc.length = cap := le_antisymm hacc hge
      obtain ⟨a, t, rfl⟩ : ∃ a t, acc = a :: t := by
        cases acc with
        | nil => simp at heq; omega
        | cons a t => exact ⟨a, t, rfl⟩
      have e : MetricHistory.push ⟨cap, a :: t⟩ x = ⟨cap, t ++ [x]⟩ := by
        have hcond : cap ≤ (a :: t).length := heq.ge
        simp only [MetricHistory.push]
        rw [if_pos hcond]
        rfl
      rw [step, e, ih (t ++ [x]) (by simp at heq ⊢; omega)]
      have hi1 : (t ++ [x]).length + rest.length - cap = rest.length := by
        simp at heq ⊢
        omega
      have hi2 : (a :: t).length + (x :: rest).length - cap = rest.length + 1 := by
        simp at heq ⊢
        omega
      rw [hi1, hi2]
      congr 1
      have : (a :: t) ++ x :: rest = a :: (t ++ x :: rest) := rfl
      rw [this, List.drop_succ_cons, List.append_assoc]
      rfl

/-- C6, counterexample. The claim's invariant "length never exceeds the
capacity" fails at capacity 0 (reachable via `--history-length 0`): one
push pops the empty front (a no-op) and then appends, giving length 1. -/
theorem claim_C6_counterexample :
    (MetricHistory.pushMany (MetricHistory.new 0) [F64.nan]).len = 1
    ∧ (MetricHistory.pushMany (MetricHistory.new 0) [F64.nan]).capacity = 0 := by
  constructor <;> decide

/-- C6 as amended: for every capacity at least 1 the claim holds as
stated — after any sequence of pushes from empty the contents are exactly
the last `capacity` values pushed, oldest first (so the length never
exceeds the capacity and equals it after `capacity + k` pushes); a push
into a full buffer evicts exactly the oldest element; and `trend` is
newest minus oldest exactly when at least two samples are stored. -/
theorem claim_C6_ring_buffer (cap : Nat) (hcap : 1 ≤ cap) (xs : List F64) :
    (MetricHistory.pushMany (MetricHistory.new cap) xs).len = min xs.length cap
    ∧ (MetricHistory.pushMany (MetricHistory.new cap) xs).values
      = xs.drop (xs.length - cap)
    ∧ (∀ (h : MetricHistory) (v : F64), h.values.length = h.capacity →
        (h.push v).values = h.values.tail ++ [v])
    ∧ (∀ h : MetricHistory, h.values.length < 2 → h.trend = none)
    ∧ (∀ (h : MetricHistory) (o n : F64), 2 ≤ h.values.length →
        h.values.head? = some o → h.values.getLast? = some n →
        h.trend = some (F64.sub n o)) := by
  have base := pushMany_eq cap hcap xs [] (by simp)
  have hnew : MetricHistory.new cap = (⟨cap, []⟩ : MetricHistory) := rfl
  have hvals : (MetricHistory.pushMany (MetricHistory.new cap) xs).values
      = xs.drop (xs.length - cap) := by
    rw [hnew, base]
    simp
  refine ⟨?_, hvals, ?_, ?_, ?_⟩
  · rw [MetricHistory.len, hvals, List.length_drop]
    omega
  · intro h v hfull
    simp [MetricHistory.push, hfull.symm.le]
  · intro h hlt
    simp [MetricHistory.trend, hlt]
  · intro h o n h2 ho hn
    rw [MetricHistory.trend, if_neg (by omega), ho, hn]

/-- Witness for C6: the theorem applied at capacity 2 and three pushes. -/
theorem claim_C6_witness :
    1 ≤ 2
    ∧ ((MetricHistory.pushMany (MetricHistory.new 2) [F64.nan, F64.nan, F64.nan]).len
        = min [F64.nan, F64.nan, F64.nan].length 2
      ∧ (MetricHistory.pushMany (MetricHistory.new 2) [F64.nan, F64.nan, F64.nan]).values
        = [F64.nan, F64.nan, F64.nan].drop ([F64.nan, F64.nan, F64.nan].length - 2)
      ∧ (∀ (h : MetricHistory) (v : F64), h.values.length = h.capacity →
          (h.push v).values = h.values.tail ++ [v])
      ∧ (∀ h : MetricHistory, h.values.length < 2 → h.trend = none)
      ∧ (∀ (h : MetricHistory) (o n : F64), 2 ≤ h.values.length →
          h.values.head? = some o → h.values.getLast? = some n →
          h.trend = some (F64.sub n o))) :=
  ⟨by decide, claim_C6_ring_buffer 2 (by decide) [F64.nan, F64.nan, F64.nan]⟩

/-! ### C7: present-and-zero peer count scenario -/

/-- C7: a payload whose only recognized line is `connectedPeers_int 0`
yields `peers_connected = some 0` (present-and-zero, not conflated with
absent and not overwritten by the cold/warm/hot fallback sum) while
`kes_remaining` stays absent; `check_peer_count` on that value emits a
Critical alert, and on a present-but-low nonzero count (1) a Warning. -/
theorem claim_C7_zero_peers_scenario :
    (parse_prometheus_metrics "cardano_node_metrics_connectedPeers_int 0" 0).peers_connected
      = some 0
    ∧ (parse_prometheus_metrics "cardano_node_metrics_connectedPeers_int 0" 0).kes_remaining
      = none
    ∧ ((AlertManager.check_peer_count (AlertManager.new "node") 1000
        (parse_prometheus_metrics "cardano_node_metrics_connectedPeers_int 0" 0).peers_connected).2.map
        Alert.severity) = some .critical
    ∧ ((AlertManager.check_peer_count (AlertManager.new "node") 1000 (some 1)).2.map
        Alert.severity) = some .warning := by
  refine ⟨by decide, by decide, by decide, by decide⟩

/-! ### C3: the per-line parsing rule -/

/-- A found first index splits the list at the end of the satisfying-free
prefix. -/
theorem firstIdxP_take (p : Char → Bool) :
    ∀ (cs : List Char) (i : Nat), firstIdxP p cs = some i →
      cs.take i = cs.takeWhile (fun a => !(p a)) := by
  intro cs
  induction cs with
  | nil => intro i h; simp [firstIdxP] at h
  | cons a l ih =>
    intro i h
    cases hpa : p a with
    | true =>
      simp [firstIdxP, hpa] at h
      subst h
      simp [List.takeWhile_cons, hpa]
    | false =>
      simp [firstIdxP, hpa] at h
      obtain ⟨j, hj, rfl⟩ := h
      simp [List.takeWhile_cons, hpa, List.take_succ_cons, ih j hj]

/-- `firstIdxP` finds nothing exactly when no character satisfies `p`. -/
theorem firstIdxP_none (p : Char → Bool) :
    ∀ cs : List Char, firstIdxP p cs = none ↔ cs.any p = false := by
  intro cs
  induction cs with
  | nil => simp [firstIdxP]
  | cons a l ih =>
    cases hpa : p a with
    | true => simp [firstIdxP, hpa]
    | false => simp [firstIdxP, hpa, ih]

/-- C3, counterexample. The claim says the metric name ends at the first
`\x7b` or the first space, whichever occurs first; but the source tries
`find('\x7b')` first and only falls back to `find(' ')` when there is no
brace at all, so on a line whose first space precedes its first brace the
code cuts at the brace ("a b"), not at the space ("a"). -/
theorem claim_C3_counterexample :
    parse_metric_line "a b\x7bc\x7d 1" = some ("a b", F64.val 1)
    ∧ specNameWhicheverFirst "a b\x7bc\x7d 1" = some "a" := by
  constructor <;> decide

/-- C3 as amended: the name is the substring before the first `\x7b` when
the line contains a brace anywhere, otherwise the substring before the
first space (no name, hence no result, when it has neither); the value is
the token after the last space, and the line yields a pair exactly when
that token parses as a float — otherwise it is skipped without error. -/
theorem claim_C3_line_rule (line : String) :
    parse_metric_line line = specParseAmended line := by
  unfold parse_metric_line specParseAmended specNameAmended
  cases h1 : firstIdxP (fun c => decide (c = '\x7b')) (trimChars line.data) with
  | some i =>
    have hany : (trimChars line.data).any (fun c => decide (c = '\x7b')) = true := by
      cases ha : (trimChars line.data).any (fun c => decide (c = '\x7b'))
      · rw [(firstIdxP_none _ _).mpr ha] at h1
        cases h1
      · rfl
    have htake := firstIdxP_take _ _ i h1
    simp only [h1, Option.orElse, hany, if_true, htake]
  | none =>
    have hnone : (trimChars line.data).any (fun c => decide (c = '\x7b')) = false := by
      cases ha : (trimChars line.data).any (fun c => decide (c = '\x7b'))
      · rfl
      · have := (firstIdxP_none (fun c => decide (c = '\x7b')) (trimChars line.data)).mp h1
        rw [this] at ha
        cases ha
    cases h2 : firstIdxP (fun c => decide (c = ' ')) (trimChars line.data) with
    | some j =>
      have hany2 : (trimChars line.data).any (fun c => decide (c = ' ')) = true := by
        cases ha : (trimChars line.data).any (fun c => decide (c = ' '))
        · rw [(firstIdxP_none _ _).mpr ha] at h2
          cases h2
        · rfl
      have htake2 := firstIdxP_take _ _ j h2
      simp only [h1, h2, Option.orElse, hnone, hany2, if_true, if_false,
        Bool.false_eq_true, htake2]
    | none =>
      have hnone2 : (trimChars line.data).any (fun c => decide (c = ' ')) = false := by
        cases ha : (trimChars line.data).any (fun c => decide (c = ' '))
        · rfl
        · have := (firstIdxP_none (fun c => decide (c = ' ')) (trimChars line.data)).mp h2
          rw [this] at ha
          cases ha
      simp only [h1, h2, Option.orElse, hnone, hnone2, Bool.false_eq_true,
        if_false]

/-! ### C4: cooldown-gated re-firing -/

/-- C4: for each alert category with cooldown C (KES 3600 s, peer 300 s,
sync 600 s, block-stall 600 s) and a persistently unhealthy value, a call
with no previous alert fires; a call at elapsed time `t < C` since the
last alert fires nothing and leaves the state unchanged; and a call at
`t ≥ C` fires again and moves the category's last-alert timestamp to the
call time — edge-suppression, re-firing after every cooldown expiry, not
edge-triggering. -/
theorem claim_C4_cooldown_refire (st : AlertManager) (last t : Nat)
    (r c a : Nat) (q : ℚ)
    (hr : r < 5) (hc : c < 2) (hq : q < 95) (ha : 300 < a) :
    ((AlertManager.check_kes_expiry { st with last_kes_warning := none }
        t (some r)).2.isSome = true
      ∧ (t < 3600 →
          AlertManager.check_kes_expiry { st with last_kes_warning := some last }
            (last + t) (some r)
          = ({ st with last_kes_warning := some last }, none))
      ∧ (3600 ≤ t →
          (AlertManager.check_kes_expiry { st with last_kes_warning := some last }
            (last + t) (some r)).2.isSome = true
          ∧ (AlertManager.check_kes_expiry { st with last_kes_warning := some last }
            (last + t) (some r)).1.last_kes_warning = some (last + t)))
    ∧ ((AlertManager.check_peer_count { st with last_peer_warning := none }
        t (some c)).2.isSome = true
      ∧ (t < 300 →
          AlertManager.check_peer_count { st with last_peer_warning := some last }
            (last + t) (some c)
          = ({ st with last_peer_warning := some last }, none))
      ∧ (300 ≤ t →
          (AlertManager.check_peer_count { st with last_peer_warning := some last }
            (last + t) (some c)).2.isSome = true
          ∧ (AlertManager.check_peer_count { st with last_peer_warning := some last }
            (last + t) (some c)).1.last_peer_warning = some (last + t)))
    ∧ ((AlertManager.check_sync_progress { st with last_sync_warning := none }
        t (some (.val q))).2.isSome = true
      ∧ (t < 600 →
          AlertManager.check_sync_progress { st with last_sync_warning := some last }
            (last + t) (some (.val q))
          = ({ st with last_sync_warning := some last }, none))
      ∧ (600 ≤ t →
          (AlertManager.check_sync_progress { st with last_sync_warning := some last }
            (last + t) (some (.val q))).2.isSome = true
          ∧ (AlertManager.check_sync_progress { st with last_sync_warning := some last }
            (last + t) (some (.val q))).1.last_sync_warning = some (last + t)))
    ∧ ((AlertManager.check_block_stall { st with last_height_stall_warning := none }
        t none (some a)).2.isSome = true
      ∧ (t < 600 →
          AlertManager.check_block_stall { st with last_height_stall_warning := some last }
            (last + t) none (some a)
          = ({ st with last_height_stall_warning := some last }, none))
      ∧ (600 ≤ t →
          (AlertManager.check_block_stall { st with last_height_stall_warning := some last }
            (last + t) none (some a)).2.isSome = true
          ∧ (AlertManager.check_block_stall { st with last_height_stall_warning := some last }
            (last + t) none (some a)).1.last_height_stall_warning
            = some (last + t))) := by
  refine ⟨⟨?_, fun ht => ?_, fun ht => ⟨?_, ?_⟩⟩, ⟨?_, fun ht => ?_, fun ht => ⟨?_, ?_⟩⟩,
    ⟨?_, fun ht => ?_, fun ht => ⟨?_, ?_⟩⟩, ⟨?_, fun ht => ?_, fun ht => ⟨?_, ?_⟩⟩⟩
  · simp [AlertManager.check_kes_expiry, hr]
  · simp [AlertManager.check_kes_expiry, hr, Nat.add_sub_cancel_left, ht]
  · simp [AlertManager.check_kes_expiry, hr, Nat.add_sub_cancel_left,
      Nat.not_lt.mpr ht, AlertManager.addAlert]
  · simp [AlertManager.check_kes_expiry, hr, Nat.add_sub_cancel_left,
      Nat.not_lt.mpr ht, AlertManager.addAlert]
  · simp [AlertManager.check_peer_count, hc]
  · simp [AlertManager.check_peer_count, hc, Nat.add_sub_cancel_left, ht]
  · simp [AlertManager.check_peer_count, hc, Nat.add_sub_cancel_left,
      Nat.not_lt.mpr ht, AlertManager.addAlert]
  · simp [AlertManager.check_peer_count, hc, Nat.add_sub_cancel_left,
      Nat.not_lt.mpr ht, AlertManager.addAlert]
  · simp [AlertManager.check_sync_progress, F64.ltQ, hq]
  · simp [AlertManager.check_sync_progress, F64.ltQ, hq, Nat.add_sub_cancel_left, ht]
  · simp [AlertManager.check_sync_progress, F64.ltQ, hq, Nat.add_sub_cancel_left,
      Nat.not_lt.mpr ht, AlertManager.addAlert]
  · simp [AlertManager.check_sync_progress, F64.ltQ, hq, Nat.add_sub_cancel_left,
      Nat.not_lt.mpr ht, AlertManager.addAlert]
  · simp [AlertManager.check_block_stall, ha]
  · simp [AlertManager.check_block_stall, ha, Nat.add_sub_cancel_left, ht]
  · simp [AlertManager.check_block_stall, ha, Nat.add_sub_cancel_left,
      Nat.not_lt.mpr ht, AlertManager.addAlert]
  · simp [AlertManager.check_block_stall, ha, Nat.add_sub_cancel_left,
      Nat.not_lt.mpr ht, AlertManager.addAlert]

/-- Witness for C4: the theorem applied at a fresh manager, last-alert
time 7000, elapsed 50 s, and the unhealthy values 3 KES periods, 0 peers,
80 % sync, 400 s block age. -/
theorem claim_C4_witness :
    ((3 : Nat) < 5 ∧ (0 : Nat) < 2 ∧ (80 : ℚ) < 95 ∧ (300 : Nat) < 400)
    ∧ (((AlertManager.check_kes_expiry
          { AlertManager.new "n" with last_kes_warning := none } 50 (some 3)).2.isSome = true
        ∧ (50 < 3600 →
            AlertManager.check_kes_expiry
              { AlertManager.new "n" with last_kes_warning := some 7000 } (7000 + 50) (some 3)
            = ({ AlertManager.new "n" with last_kes_warning := some 7000 }, none))
        ∧ (3600 ≤ 50 →
            (AlertManager.check_kes_expiry
              { AlertManager.new "n" with last_kes_warning := some 7000 } (7000 + 50) (some 3)).2.isSome = true
            ∧ (AlertManager.check_kes_expiry
              { AlertManager.new "n" with last_kes_warning := some 7000 } (7000 + 50) (some 3)).1.last_kes_warning
              = some (7000 + 50)))
      ∧ ((AlertManager.check_peer_count
          { AlertManager.new "n" with last_peer_warning := none } 50 (some 0)).2.isSome = true
        ∧ (50 < 300 →
            AlertManager.check_peer_count
              { AlertManager.new "n" with last_peer_warning := some 7000 } (7000 + 50) (some 0)
            = ({ AlertManager.new "n" with last_peer_warning := some 7000 }, none))
        ∧ (300 ≤ 50 →
            (AlertManager.check_peer_count
              { AlertManager.new "n" with last_peer_warning := some 7000 } (7000 + 50) (some 0)).2.isSome = true
            ∧ (AlertManager.check_peer_count
              { AlertManager.new "n" with last_peer_warning := some 7000 } (7000 + 50) (some 0)).1.last_peer_warning
              = some (7000 + 50)))
      ∧ ((AlertManager.check_sync_progress
          { AlertManager.new "n" with last_sync_warning := none } 50 (some (.val 80))).2.isSome = true
        ∧ (50 < 600 →
            AlertManager.check_sync_progress
              { AlertManager.new "n" with last_sync_warning := some 7000 } (7000 + 50) (some (.val 80))
            = ({ AlertManager.new "n" with last_sync_warning := some 7000 }, none))
        ∧ (600 ≤ 50 →
            (AlertManager.check_sync_progress
              { AlertManager.new "n" with last_sync_warning := some 7000 } (7000 + 50) (some (.val 80))).2.isSome = true
            ∧ (AlertManager.check_sync_progress
              { AlertManager.new "n" with last_sync_warning := some 7000 } (7000 + 50) (some (.val 80))).1.last_sync_warning
              = some (7000 + 50)))
      ∧ ((AlertManager.check_block_stall
          { AlertManager.new "n" with last_height_stall_warning := none } 50 none (some 400)).2.isSome = true
        ∧ (50 < 600 →
            AlertManager.check_block_stall
              { AlertManager.new "n" with last_height_stall_warning := some 7000 } (7000 + 50) none (some 400)
            = ({ AlertManager.new "n" with last_height_stall_warning := some 7000 }, none))
        ∧ (600 ≤ 50 →
            (AlertManager.check_block_stall
              { AlertManager.new "n" with last_height_stall_warning := some 7000 } (7000 + 50) none (some 400)).2.isSome = true
            ∧ (AlertManager.check_block_stall
              { AlertManager.new "n" with last_height_stall_warning := some 7000 } (7000 + 50) none (some 400)).1.last_height_stall_warning
              = some (7000 + 50)))) :=
  ⟨⟨by decide, by decide, by decide, by decide⟩,
    claim_C4_cooldown_refire (AlertManager.new "n") 7000 50 3 0 400 80
      (by decide) (by decide) (by decide) (by decide)⟩

/-! ### C5: snapshot save gating -/

/-- C5: `save_snapshot` returns false and changes nothing (neither the
filesystem map nor the last-save timestamp) when called before the
3600 s minimum interval has elapsed since the last successful save, and
likewise when the record is disconnected; when it reports a successful
save the last-save timestamp becomes the save time, and on any other
outcome (skip or failed directory/file write) the last-save timestamp is
unchanged. -/
theorem claim_C5_save_gating (sm : StorageManager) (now : Nat) (m : NodeMetrics)
    (dirOk writeOk : Bool) :
    (∀ last, sm.last_save_timestamp = some last →
      now - last < MIN_SAMPLE_INTERVAL_SECS →
      save_snapshot sm now m dirOk writeOk = (.ok false, sm))
    ∧ (m.connected = false →
      save_snapshot sm now m dirOk writeOk = (.ok false, sm))
    ∧ ((save_snapshot sm now m dirOk writeOk).1 = .ok true →
      (save_snapshot sm now m dirOk writeOk).2.last_save_timestamp = some now)
    ∧ ((save_snapshot sm now m dirOk writeOk).1 ≠ .ok true →
      (save_snapshot sm now m dirOk writeOk).2.last_save_timestamp
        = sm.last_save_timestamp) := by
  refine ⟨?_, ?_, ?_, ?_⟩
  · intro last hl ht
    simp [save_snapshot, intervalGate, hl, ht]
  · intro hconn
    cases hb : intervalGate sm.last_save_timestamp now <;>
      simp [save_snapshot, hb, hconn]
  · intro h
    cases hb : intervalGate sm.last_save_timestamp now <;>
      cases hconn : m.connected <;>
        cases dirOk <;>
          cases writeOk <;>
            simp_all [save_snapshot]
  · intro h
    cases hb : intervalGate sm.last_save_timestamp now <;>
      cases hconn : m.connected <;>
        cases dirOk <;>
          cases writeOk <;>
            simp_all [save_snapshot]

/-- Witness for C5: the theorem's interval-gate part applied at a manager
that saved at time 100, called again at time 200. -/
theorem claim_C5_witness :
    (200 : Nat) - 100 < MIN_SAMPLE_INTERVAL_SECS
    ∧ save_snapshot ⟨"n", 30, some 100, fun _ => .absent⟩ 200 {} true true
      = (.ok false, ⟨"n", 30, some 100, fun _ => .absent⟩) :=
  ⟨by decide,
    (claim_C5_save_gating ⟨"n", 30, some 100, fun _ => .absent⟩ 200 {} true true).1
      100 rfl (by decide)⟩

/-! ### C9: retention cleanup -/

/-- C9: the claim (and the spec) says `cleanup_old_data` deletes exactly
the daily files whose path-reconstructed date is older than
`now - retention_days`; but the program writes daily files named
`DD.json.gz` while `parse_date_from_path` takes `Path::file_stem` — which
strips only the final extension, yielding `DD.json` — and `"15.json"`
does not parse as a `u32`, so no date is ever reconstructed and no daily
file is ever deleted. At 2025-10-12 with 30-day retention, a file from
2020-01-15 (far older than the cutoff) survives untouched. -/
theorem claim_C9_cleanup_never_matches :
    cleanup_old_data
        [{ name := "2020", isDir := true,
           months := [{ name := "01", isDir := true, dayFiles := ["15.json.gz"] }] }]
        1760227200 30
      = ([{ name := "2020", isDir := true,
            months := [{ name := "01", isDir := true, dayFiles := ["15.json.gz"] }] }], 0)
    ∧ parse_date_from_path "2020" "01" "15.json.gz" = none
    ∧ String.mk (fileStem "15.json.gz".data) = "15.json"
    ∧ date_to_timestamp 2020 1 15 < 1760227200 - 30 * 86400
    ∧ parse_date_from_path "2020" "01" "15"
      = some (date_to_timestamp 2020 1 15) := by
  refine ⟨by decide, by decide, by decide, by decide, by decide⟩

/-! ### C10: calendar conversion round-trips -/

theorem daysInYear_ge (y : Nat) : 365 ≤ daysInYear y := by
  unfold daysInYear
  split <;> omega

theorem tableSum (y : Nat) : (days_in_months y).sum = daysInYear y := by
  unfold days_in_months daysInYear
  split <;> rfl

theorem tableLen (y : Nat) : (days_in_months y).length = 12 := by
  unfold days_in_months
  split <;> rfl

/-- The month-table prefix up to an index plus that index's entry is at
most the whole table's sum. -/
theorem take_sum_getD_le :
    ∀ (tbl : List Nat) (k : Nat), k < tbl.length →
      (tbl.take k).sum + tbl.getD k 0 ≤ tbl.sum := by
  intro tbl
  induction tbl with
  | nil => intro k hk; simp at hk
  | cons L rest ih =>
    intro k hk
    cases k with
    | zero => simp
    | succ k' =>
      have := ih k' (by simpa using hk)
      simp only [List.take_succ_cons, List.sum_cons, List.getD_cons_succ]
      omega

/-- `is_leap_year` as a proposition over residues. -/
theorem is_leap_iff (y : Nat) :
    is_leap_year y = true ↔ ((y % 4 = 0 ∧ ¬(y % 100 = 0)) ∨ y % 400 = 0) := by
  simp [is_leap_year]

/-- A year's length is 365 plus its leap bit. -/
theorem daysInYear_eq (y : Nat) :
    daysInYear y = 365 + (if is_leap_year y = true then 1 else 0) := by
  unfold daysInYear
  cases h : is_leap_year y <;> simp [h]

/-- `leapCount` counts one more exactly across a leap year. -/
theorem leapCount_succ (x : Nat) :
    leapCount (x + 1) = leapCount x + (if is_leap_year x = true then 1 else 0) := by
  by_cases hL : is_leap_year x = true
  · rw [if_pos hL]
    have hc := (is_leap_iff x).mp hL
    unfold leapCount
    omega
  · rw [if_neg hL]
    have hc : ¬((x % 4 = 0 ∧ ¬(x % 100 = 0)) ∨ x % 400 = 0) :=
      fun hh => hL ((is_leap_iff x).mpr hh)
    unfold leapCount
    omega

/-- Closed form of `sumYears`: 365 days per year plus the leap years in
the range. -/
theorem sumYears_closed :
    ∀ (n a : Nat), sumYears a n + leapCount a = 365 * n + leapCount (a + n) := by
  intro n
  induction n with
  | zero => intro a; simp [sumYears]
  | succ n ih =>
    intro a
    have h1 : sumYears a (n + 1) = daysInYear a + sumYears (a + 1) n := rfl
    have h2 := ih (a + 1)
    have h3 := leapCount_succ a
    have h4 := daysInYear_eq a
    have h5 : a + (n + 1) = (a + 1) + n := by omega
    rw [h1, h5]
    omega

/-- The day count from 1970-01-01 to the first day the `u32` year counter
cannot represent (the morning of year `2^32`), via the closed form. -/
theorem sumYears_wrap_value : sumYears 1970 4294965326 = 1568703873082 := by
  have h := sumYears_closed 4294965326 1970
  have h1 : leapCount 1970 = 478 := by decide
  have h2 : leapCount (1970 + 4294965326) = 1041529570 := by decide
  omega

/-- Analysis of the year loop: given enough fuel, and a start point from
which the `u32` year counter never wraps (each consumed year eats at
least 365 days, so the years visited stay at or below `y + d / 365`),
the result year is at or after the start year, the residual day count
falls inside the result year, and the consumed whole years sum back to
the input. -/
theorem yearLoopGo_spec :
    ∀ (fuel y d y' r : Nat), d < fuel → y + d / 365 < 4294967296 →
      yearLoopGo fuel y d = (y', r) →
      y ≤ y' ∧ r < daysInYear y' ∧ sumYears y (y' - y) + r = d := by
  intro fuel
  induction fuel with
  | zero => intro y d y' r h; omega
  | succ fuel ih =>
    intro y d y' r h hb he
    simp only [yearLoopGo] at he
    split at he
    · rename_i hlt
      obtain ⟨rfl, rfl⟩ := Prod.mk.injEq .. ▸ he
      refine ⟨le_refl y, ?_, ?_⟩
      · simpa using hlt
      · simp [sumYears]
    · rename_i hge
      have hd := daysInYear_ge y
      have hle : daysInYear y ≤ d := by omega
      have hwrap : (y + 1) % 4294967296 = y + 1 := by omega
      rw [hwrap] at he
      have hfuel : d - daysInYear y < fuel := by omega
      have hb' : (y + 1) + (d - daysInYear y) / 365 < 4294967296 := by omega
      obtain ⟨h1, h2, h3⟩ := ih (y + 1) (d - daysInYear y) y' r hfuel hb' he
      refine ⟨by omega, h2, ?_⟩
      have hn : y' - y = (y' - (y + 1)) + 1 := by omega
      rw [hn]
      simp only [sumYears]
      omega

/-- Synthesis for the year loop, wrap-aware: starting below the `u32`
bound on the day count of `n` whole years plus a residual that fits in
the (possibly wrapped) target year lands exactly on that target. With
`y + n = 2^32` this reaches the wrapped year 0. -/
theorem yearLoopGo_build :
    ∀ (n y r fuel : Nat), y < 4294967296 → y + n ≤ 4294967296 →
      r < daysInYear ((y + n) % 4294967296) → sumYears y n + r < fuel →
      yearLoopGo fuel y (sumYears y n + r) = ((y + n) % 4294967296, r) := by
  intro n
  induction n with
  | zero =>
    intro y r fuel hy hyn hr hf
    have hm : (y + 0) % 4294967296 = y := by omega
    rw [hm] at hr ⊢
    simp only [sumYears] at hf ⊢
    cases fuel with
    | zero => omega
    | succ f =>
      simp only [Nat.zero_add, yearLoopGo]
      rw [if_pos hr]
  | succ n ih =>
    intro y r fuel hy hyn hr hf
    have hd := daysInYear_ge y
    simp only [sumYears] at hf ⊢
    cases fuel with
    | zero => omega
    | succ f =>
      simp only [yearLoopGo]
      rw [if_neg (by omega), Nat.add_assoc, Nat.add_sub_cancel_left]
      rcases Nat.lt_or_ge (y + 1) 4294967296 with hlt | hge2
      · have hm : (y + 1) % 4294967296 = y + 1 := by omega
        rw [hm]
        have hyn' : (y + 1) + n ≤ 4294967296 := by omega
        have hr' : r < daysInYear (((y + 1) + n) % 4294967296) := by
          have : (y + 1) + n = y + (n + 1) := by omega
          rw [this]
          exact hr
        have := ih (y + 1) r f hlt hyn' hr' (by omega)
        rw [this]
        have : (y + 1) + n = y + (n + 1) := by omega
        rw [this]
      · have hy1 : y + 1 = 4294967296 := by omega
        have hn0 : n = 0 := by omega
        subst hn0
        have hm0 : (y + (0 + 1)) % 4294967296 = 0 := by omega
        rw [hm0] at hr ⊢
        simp only [sumYears, Nat.zero_add] at hf ⊢
        cases f with
        | zero => omega
        | succ f2 =>
          simp only [yearLoopGo]
          rw [if_pos hr]

/-- Analysis of the month loop: when the input fits inside the table, the
result month indexes the entry the residual falls in. -/
theorem monthLoop_spec :
    ∀ (tbl : List Nat) (m d m' r : Nat), monthLoop m tbl d = (m', r) →
      d < tbl.sum →
      ∃ k, k < tbl.length ∧ m' = m + k ∧ r < tbl.getD k 0
        ∧ (tbl.take k).sum + r = d := by
  intro tbl
  induction tbl with
  | nil => intro m d m' r he hd; simp at hd
  | cons L rest ih =>
    intro m d m' r he hd
    simp only [monthLoop] at he
    split at he
    · rename_i hlt
      obtain ⟨rfl, rfl⟩ := Prod.mk.injEq .. ▸ he
      exact ⟨0, by simp, by simp, by simpa using hlt, by simp⟩
    · rename_i hge
      have hL : L ≤ d := by omega
      have hd' : d - L < rest.sum := by
        simp at hd
        omega
      obtain ⟨k, hk, hm, hr, ht⟩ := ih (m + 1) (d - L) m' r he hd'
      refine ⟨k + 1, ?_, by omega, ?_, ?_⟩
      · simp only [List.length_cons]
        omega
      · simpa only [List.getD_cons_succ] using hr
      · rw [List.take_succ_cons, List.sum_cons]
        omega

/-- Synthesis for the month loop. -/
theorem monthLoop_build :
    ∀ (tbl : List Nat) (m k r : Nat), k < tbl.length → r < tbl.getD k 0 →
      monthLoop m tbl ((tbl.take k).sum + r) = (m + k, r) := by
  intro tbl
  induction tbl with
  | nil => intro m k r hk; simp at hk
  | cons L rest ih =>
    intro m k r hk hr
    cases k with
    | zero =>
      simp only [List.take_zero, List.sum_nil, Nat.zero_add, monthLoop]
      rw [if_pos (by simpa using hr)]
      simp
    | succ k' =>
      simp only [List.take_succ_cons, List.sum_cons, monthLoop]
      rw [if_neg (by omega), Nat.add_assoc, Nat.add_sub_cancel_left]
      have := ih (m + 1) k' r (by simpa using hk) (by simpa using hr)
      rw [this]
      congr 1
      omega

/-- `timestamp_to_date` unwound against given loop results. -/
theorem timestamp_to_date_eq (ts days y r mo r2 : Nat)
    (h : ts / 86400 = days)
    (hy : yearLoopGo (days + 1) 1970 days = (y, r))
    (hm : monthLoop 1 (days_in_months y) r = (mo, r2)) :
    timestamp_to_date ts = (y, mo, r2 + 1) := by
  unfold timestamp_to_date
  rw [h]
  simp only [hy, hm]

/-- C10 as amended: the two calendar helpers are mutually inverse on the
domain the source's `u32` year counter can represent — for every valid
proleptic-Gregorian date with `1970 ≤ year < 2^32` (the year parameter is
a `u32` in the source), `timestamp_to_date` recovers exactly the date
`date_to_timestamp` encoded; and for every Unix timestamp from which the
year loop stays inside `u32` (`1970 + ts / 86400 / 365 < 2^32`, years
through roughly 4.29 billion), re-encoding its decoded date gives back
the midnight of its day, `ts - ts % 86400`. Beyond that bound the year
counter wraps (release) or panics (debug) and the round-trip fails — see
the counterexample. -/
theorem claim_C10_calendar_roundtrip :
    (∀ y m d, y < 4294967296 → validDate y m d →
      timestamp_to_date (date_to_timestamp y m d) = (y, m, d))
    ∧ (∀ ts : Nat, 1970 + ts / 86400 / 365 < 4294967296 →
      date_to_timestamp (timestamp_to_date ts).1 (timestamp_to_date ts).2.1
        (timestamp_to_date ts).2.2 = ts - ts % 86400) := by
  constructor
  · intro y m d hy32 hv
    obtain ⟨hy1970, hm1, hm12, hd1, hdle⟩ := hv
    have hlen : m - 1 < (days_in_months y).length := by
      rw [tableLen]
      omega
    have hgetpos : 1 ≤ (days_in_months y).getD (m - 1) 0 := by omega
    have hr2 : d - 1 < (days_in_months y).getD (m - 1) 0 := by omega
    have hrlt : ((days_in_months y).take (m - 1)).sum + (d - 1) < daysInYear y := by
      have := take_sum_getD_le (days_in_months y) (m - 1) hlen
      rw [tableSum] at this
      omega
    have hD : date_to_timestamp y m d
        = (sumYears 1970 (y - 1970)
            + (((days_in_months y).take (m - 1)).sum + (d - 1))) * 86400 := by
      unfold date_to_timestamp
      ring_nf
    have hdiv : (sumYears 1970 (y - 1970)
        + (((days_in_months y).take (m - 1)).sum + (d - 1))) * 86400 / 86400
        = sumYears 1970 (y - 1970)
          + (((days_in_months y).take (m - 1)).sum + (d - 1)) :=
      Nat.mul_div_cancel _ (by norm_num)
    have hyy : 1970 + (y - 1970) = y := by omega
    have hy32m : y % 4294967296 = y := Nat.mod_eq_of_lt hy32
    have hyl : yearLoopGo
        ((sumYears 1970 (y - 1970)
          + (((days_in_months y).take (m - 1)).sum + (d - 1))) + 1) 1970
        (sumYears 1970 (y - 1970)
          + (((days_in_months y).take (m - 1)).sum + (d - 1)))
        = (y, ((days_in_months y).take (m - 1)).sum + (d - 1)) := by
      have hb := yearLoopGo_build (y - 1970) 1970
        (((days_in_months y).take (m - 1)).sum + (d - 1)) _
        (by norm_num) (by omega)
        (by rw [hyy, hy32m]; exact hrlt) (Nat.lt_succ_self _)
      rw [hyy, hy32m] at hb
      exact hb
    have hml : monthLoop 1 (days_in_months y)
        (((days_in_months y).take (m - 1)).sum + (d - 1)) = (m, d - 1) := by
      have := monthLoop_build (days_in_months y) 1 (m - 1) (d - 1) hlen hr2
      rw [show 1 + (m - 1) = m by omega] at this
      exact this
    rw [hD]
    rw [timestamp_to_date_eq _ _ y
      (((days_in_months y).take (m - 1)).sum + (d - 1)) m (d - 1) hdiv hyl hml]
    simp [show d - 1 + 1 = d by omega]
  · intro ts hts
    rcases e1 : yearLoopGo (ts / 86400 + 1) 1970 (ts / 86400) with ⟨y, r⟩
    obtain ⟨hy1970, hrlt, hsum⟩ :=
      yearLoopGo_spec (ts / 86400 + 1) 1970 (ts / 86400) y r (Nat.lt_succ_self _)
        hts e1
    rcases e2 : monthLoop 1 (days_in_months y) r with ⟨mo, r2⟩
    have hrtbl : r < (days_in_months y).sum := by
      rw [tableSum]
      exact hrlt
    obtain ⟨k, hk, hmo, hr2, htake⟩ := monthLoop_spec (days_in_months y) 1 r mo r2 e2 hrtbl
    rw [timestamp_to_date_eq ts (ts / 86400) y r mo r2 rfl e1 e2]
    unfold date_to_timestamp
    have hmk : mo - 1 = k := by omega
    have hd1 : r2 + 1 - 1 = r2 := by omega
    rw [hmk, hd1]
    have hdays : sumYears 1970 (y - 1970) + ((days_in_months y).take k).sum + r2
        = ts / 86400 := by omega
    rw [hdays]
    have := Nat.mod_add_div ts 86400
    omega

/-- C10, counterexample. The claim asserts the timestamp round-trip for
every Unix timestamp, but the source's year loop counts with a `u32`:
at the first day of year `2^32` — timestamp `135536014634284800`
(`1568703873082` days, computed via the closed form of `sumYears`) — the
wrapping increment lands the decoder on year 0, so the decoded date is
(0, 1, 1) and re-encoding gives 0, not the timestamp's midnight. (A
debug build panics on the same overflow instead.) -/
theorem claim_C10_counterexample :
    timestamp_to_date 135536014634284800 = (0, 1, 1)
    ∧ date_to_timestamp (timestamp_to_date 135536014634284800).1
        (timestamp_to_date 135536014634284800).2.1
        (timestamp_to_date 135536014634284800).2.2
      ≠ 135536014634284800 - 135536014634284800 % 86400 := by
  have hmod : (1970 + 4294965326) % 4294967296 = 0 := by decide
  have hyl : yearLoopGo (1568703873082 + 1) 1970 1568703873082 = (0, 0) := by
    have hb := yearLoopGo_build 4294965326 1970 0 (1568703873082 + 1)
      (by norm_num) (by norm_num)
      (by rw [hmod]; decide)
      (by rw [sumYears_wrap_value]; omega)
    rw [sumYears_wrap_value, hmod] at hb
    simpa using hb
  have ht2d : timestamp_to_date 135536014634284800 = (0, 1, 1) :=
    timestamp_to_date_eq 135536014634284800 1568703873082 0 0 1 0
      (by decide) hyl (by decide)
  refine ⟨ht2d, ?_⟩
  rw [ht2d]
  decide

/-- Witness for C10: the theorem's date-to-timestamp direction applied at
2024-01-15 (and the timestamp direction's bound holds for every
present-day timestamp). -/
theorem claim_C10_witness :
    ((2024 : Nat) < 4294967296 ∧ validDate 2024 1 15)
    ∧ timestamp_to_date (date_to_timestamp 2024 1 15) = (2024, 1, 15) :=
  ⟨⟨by decide, by decide⟩,
    claim_C10_calendar_roundtrip.1 2024 1 15 (by decide) (by decide)⟩

/-! ### C8: history loading and CSV export -/

/-- The sorted full window (`load_history` with no effective truncation). -/
theorem load_history_sorted_aux (sm : StorageManager) (now : Nat) :
    List.Sorted (fun a b : MetricSnapshot => a.timestamp ≤ b.timestamp)
      ((gatherWindow sm now).mergeSort
        (fun a b => a.timestamp ≤ b.timestamp)) := by
  have h := @List.sorted_mergeSort MetricSnapshot
    (fun a b => decide (a.timestamp ≤ b.timestamp))
    (fun a b c h1 h2 => by simp at h1 h2 ⊢; omega)
    (fun a b => by simp; omega)
    (gatherWindow sm now)
  exact h.imp (fun hab => by simpa using hab)

/-- `load_history` with its lets unwound. -/
theorem load_history_eq (sm : StorageManager) (now maxS : Nat) :
    load_history sm now maxS =
      if maxS < ((gatherWindow sm now).mergeSort
          (fun a b => a.timestamp ≤ b.timestamp)).length
      then ((gatherWindow sm now).mergeSort
          (fun a b => a.timestamp ≤ b.timestamp)).drop
        (((gatherWindow sm now).mergeSort
          (fun a b => a.timestamp ≤ b.timestamp)).length - maxS)
      else (gatherWindow sm now).mergeSort
          (fun a b => a.timestamp ≤ b.timestamp) := rfl

/-- C8: `load_history(max_samples)` returns exactly the snapshots of the
retention window's existing, loadable daily files (missing and corrupt
files skipped), sorted by timestamp ascending and truncated to the most
recent `max_samples` by dropping from the front (a suffix of the full
sorted history, of length `min stored max_samples`); `export_to_csv`
writes one header row plus one row per stored snapshot in that same
ascending order, and every absent optional field renders as an empty
cell. -/
theorem claim_C8_load_and_export (sm : StorageManager) (now maxS : Nat) :
    ((gatherWindow sm now).length ≤ maxS →
      (load_history sm now maxS).Perm (gatherWindow sm now))
    ∧ List.Sorted (fun a b : MetricSnapshot => a.timestamp ≤ b.timestamp)
        (load_history sm now maxS)
    ∧ (load_history sm now maxS).length = min (gatherWindow sm now).length maxS
    ∧ (load_history sm now maxS).IsSuffix
        (load_history sm now (gatherWindow sm now).length)
    ∧ (export_to_csv sm now).1
        = csvHeader :: (load_history sm now USIZE_MAX).map csvRow
    ∧ (export_to_csv sm now).2 = (load_history sm now USIZE_MAX).length
    ∧ ((gatherWindow sm now).length ≤ USIZE_MAX →
        (export_to_csv sm now).1.length = 1 + (gatherWindow sm now).length)
    ∧ (∀ s : MetricSnapshot,
        (s.block_height = none → (csvCells s)[2]? = some "")
        ∧ (s.slot_num = none → (csvCells s)[3]? = some "")
        ∧ (s.epoch = none → (csvCells s)[4]? = some "")
        ∧ (s.slot_in_epoch = none → (csvCells s)[5]? = some "")
        ∧ (s.peers_connected = none → (csvCells s)[6]? = some "")
        ∧ (s.memory_used = none → (csvCells s)[7]? = some "")
        ∧ (s.mempool_txs = none → (csvCells s)[8]? = some "")
        ∧ (s.mempool_bytes = none → (csvCells s)[9]? = some "")
        ∧ (s.sync_progress = none → (csvCells s)[10]? = some "")
        ∧ (s.kes_period = none → (csvCells s)[11]? = some "")
        ∧ (s.kes_remaining = none → (csvCells s)[12]? = some "")) := by
  have hperm := List.mergeSort_perm (gatherWindow sm now)
    (fun a b => a.timestamp ≤ b.timestamp)
  have hlen : ((gatherWindow sm now).mergeSort
      (fun a b => a.timestamp ≤ b.timestamp)).length
      = (gatherWindow sm now).length := hperm.length_eq
  have hsorted := load_history_sorted_aux sm now
  have hfull : load_history sm now (gatherWindow sm now).length
      = (gatherWindow sm now).mergeSort (fun a b => a.timestamp ≤ b.timestamp) := by
    rw [load_history_eq, if_neg (by omega)]
  refine ⟨?_, ?_, ?_, ?_, rfl, rfl, ?_, ?_⟩
  · intro hle
    rw [load_history_eq, if_neg (by omega)]
    exact hperm
  · rw [load_history_eq]
    split
    · exact (hsorted.sublist (List.drop_sublist _ _))
    · exact hsorted
  · rw [load_history_eq]
    split
    · rw [List.length_drop]
      omega
    · rw [hlen]
      omega
  · rw [hfull, load_history_eq]
    split
    · exact List.drop_suffix _ _
    · exact List.suffix_refl _
  · intro hle
    have : (load_history sm now USIZE_MAX).length
        = min (gatherWindow sm now).length USIZE_MAX := by
      rw [load_history_eq]
      split
      · rw [List.length_drop]
        omega
      · rw [hlen]
        omega
    simp only [export_to_csv, List.length_cons, List.length_map]
    omega
  · intro s
    refine ⟨fun h => ?_, fun h => ?_, fun h => ?_, fun h => ?_, fun h => ?_,
      fun h => ?_, fun h => ?_, fun h => ?_, fun h => ?_, fun h => ?_,
      fun h => ?_⟩ <;>
      simp [csvCells, opt_to_csv, opt_f64_to_csv, h]

/-- Witness for C8: the theorem applied at a store holding one snapshot on
1970-01-04 with a two-day retention window, queried at the midnight of
that day with room for five samples. -/
theorem claim_C8_witness :
    (gatherWindow ⟨"n", 2, none, fun k =>
        if k = (1970, 1, 4) then .good ⟨"n", [{ timestamp := 100 }]⟩
        else .absent⟩ 259200).length ≤ 5
    ∧ (gatherWindow ⟨"n", 2, none, fun k =>
        if k = (1970, 1, 4) then .good ⟨"n", [{ timestamp := 100 }]⟩
        else .absent⟩ 259200).length ≤ USIZE_MAX
    ∧ (load_history ⟨"n", 2, none, fun k =>
        if k = (1970, 1, 4) then .good ⟨"n", [{ timestamp := 100 }]⟩
        else .absent⟩ 259200 5).Perm
      (gatherWindow ⟨"n", 2, none, fun k =>
        if k = (1970, 1, 4) then .good ⟨"n", [{ timestamp := 100 }]⟩
        else .absent⟩ 259200)
    ∧ (export_to_csv ⟨"n", 2, none, fun k =>
        if k = (1970, 1, 4) then .good ⟨"n", [{ timestamp := 100 }]⟩
        else .absent⟩ 259200).1.length
      = 1 + (gatherWindow ⟨"n", 2, none, fun k =>
        if k = (1970, 1, 4) then .good ⟨"n", [{ timestamp := 100 }]⟩
        else .absent⟩ 259200).length :=
  ⟨by decide, by decide,
    (claim_C8_load_and_export ⟨"n", 2, none, fun k =>
        if k = (1970, 1, 4) then .good ⟨"n", [{ timestamp := 100 }]⟩
        else .absent⟩ 259200 5).1 (by decide),
    ((claim_C8_load_and_export ⟨"n", 2, none, fun k =>
        if k = (1970, 1, 4) then .good ⟨"n", [{ timestamp := 100 }]⟩
        else .absent⟩ 259200 5).2.2.2.2.2.2.1 (by decide))⟩

end Sview
